import Mathlib

/-!
Shallow embedding of the database-access runtime of this repository:
the per-backend connectors and pooled connections (src/driver/sqlx_postgres.rs,
src/driver/sqlx_sqlite.rs) and the connection interface
(src/database/db_connection.rs).

Native-driver effects (pool acquisition, query execution, fetches, begin and
commit of a native transaction) are modelled by explicit outcome oracles:
an acquired native connection is represented by the outcome each native call
would produce on it, so each driver method becomes a pure function of the
statement and those outcomes.
-/

namespace SeaOrm

/-- A bind parameter value (sea_query scalar), per the spec, an
"ordered sequence of typed scalar parameters". -/
inductive Value where
  | intVal (i : Int)
  | textVal (s : String)
  | nullVal
deriving DecidableEq

/-- Backend-agnostic SQL statement, as consumed by the drivers:
`stmt.sql` is the SQL text and `stmt.values` the optional ordered bind
values (fields read by `sqlx_query` in both driver files). -/
structure Statement where
  sql : String
  values : Option (List Value)
deriving DecidableEq

/-- A native sqlx error, as the drivers observe it: the `RowNotFound`
condition is pattern-matched; every other native error is opaque to this
layer and only its display string is used. -/
inductive SqlxError where
  | RowNotFound
  | Other (msg : String)
deriving DecidableEq

/-- Source `err.to_string()` on a native error. The display text of `RowNotFound`
is never inspected by the drivers before conversion; it is kept abstract as
a fixed string. -/
def SqlxError.toString : SqlxError → String
  | .RowNotFound => "RowNotFound"
  | .Other msg => msg

/-- Source `DbErr` (src error module): tagged union over connection, execution and
query failures, each with a human-readable message. -/
inductive DbErr where
  | Conn (msg : String)
  | Exec (msg : String)
  | Query (msg : String)
deriving DecidableEq

/-- Source `TransactionError<E>`: infrastructure failure around the unit of work,
or the own error of the caller. -/
inductive TransactionError (E : Type) where
  | Connection (err : DbErr)
  | Transaction (err : E)

instance {E : Type} [DecidableEq E] : DecidableEq (TransactionError E) := by
  intro a b
  cases a <;> cases b <;> first
    | (apply isFalse; intro h; exact TransactionError.noConfusion h)
    | (rename_i x y
       cases decEq x y with
       | isTrue h => exact isTrue (by rw [h])
       | isFalse h => exact isFalse (by intro hc; cases hc; exact h rfl))

/-- Opaque native Postgres row. -/
structure PgRow where
  payload : Nat
deriving DecidableEq

/-- Opaque native SQLite row. -/
structure SqliteRow where
  payload : Nat
deriving DecidableEq

/-- Opaque native Postgres execution result. -/
structure PgQueryResult where
  payload : Nat
deriving DecidableEq

/-- Opaque native SQLite execution result. -/
structure SqliteQueryResult where
  payload : Nat
deriving DecidableEq

/-- Backend-tagged row holder (`QueryResultRow`). -/
inductive QueryResultRow where
  | SqlxPostgres (row : PgRow)
  | SqlxSqlite (row : SqliteRow)
deriving DecidableEq

/-- Backend-neutral query result wrapping one backend-tagged row. -/
structure QueryResult where
  row : QueryResultRow
deriving DecidableEq

/-- Backend-tagged execution-result holder (`ExecResultHolder`). -/
inductive ExecResultHolder where
  | SqlxPostgres (result : PgQueryResult)
  | SqlxSqlite (result : SqliteQueryResult)
deriving DecidableEq

/-- Backend-neutral execution result wrapping one backend-tagged holder. -/
structure ExecResult where
  result : ExecResultHolder
deriving DecidableEq

/-- Source `impl From<PgRow> for QueryResult` (sqlx_postgres.rs). -/
def QueryResult.fromPgRow (row : PgRow) : QueryResult :=
  ⟨QueryResultRow.SqlxPostgres row⟩

/-- Source `impl From<SqliteRow> for QueryResult` (sqlx_sqlite.rs). -/
def QueryResult.fromSqliteRow (row : SqliteRow) : QueryResult :=
  ⟨QueryResultRow.SqlxSqlite row⟩

/-- Source `impl From<PgQueryResult> for ExecResult` (sqlx_postgres.rs). -/
def ExecResult.fromPgQueryResult (result : PgQueryResult) : ExecResult :=
  ⟨ExecResultHolder.SqlxPostgres result⟩

/-- Source `impl From<SqliteQueryResult> for ExecResult` (sqlx_sqlite.rs). -/
def ExecResult.fromSqliteQueryResult (result : SqliteQueryResult) : ExecResult :=
  ⟨ExecResultHolder.SqlxSqlite result⟩

/-- A native prepared query: SQL text plus the values bound to it so far,
in binding order (models sqlx `Query`). -/
structure NativeQuery where
  sql : String
  binds : List Value
deriving DecidableEq

/-- Source `sqlx::query(sql)`: a fresh native query with no bound values
(external sqlx entry point used by both `sqlx_query` functions). -/
def sqlxQueryNew (sql : String) : NativeQuery :=
  ⟨sql, []⟩

/-- Modelled from the spec: `bind_query`, generated into the drivers by the
sea_query driver macros (not among the sampled sources). Per the spec, the
translation binds the statement values "positionally and in the order
given", so it appends the values, in order, to the bind list of the query. -/
def bind_query (query : NativeQuery) (values : List Value) : NativeQuery :=
  ⟨query.sql, query.binds ++ values⟩

/-- Source `sqlx_query` (sqlx_postgres.rs): translate a `Statement` into the
native prepared query, binding the values when present. -/
def pg_sqlx_query (stmt : Statement) : NativeQuery :=
  let query := sqlxQueryNew stmt.sql
  match stmt.values with
  | some values => bind_query query values
  | none => query

/-- Source `sqlx_query` (sqlx_sqlite.rs): same translation for the SQLite driver. -/
def sqlite_sqlx_query (stmt : Statement) : NativeQuery :=
  let query := sqlxQueryNew stmt.sql
  match stmt.values with
  | some values => bind_query query values
  | none => query

/-- An acquired native Postgres connection, modelled by the outcome each
native driver call would produce on it. -/
structure PgConn where
  execOutcome : NativeQuery → Except SqlxError PgQueryResult
  fetchOneOutcome : NativeQuery → Except SqlxError PgRow
  fetchAllOutcome : NativeQuery → Except SqlxError (List PgRow)
  beginOutcome : Except SqlxError Unit

/-- An acquired native SQLite connection, modelled the same way. -/
structure SqliteConn where
  execOutcome : NativeQuery → Except SqlxError SqliteQueryResult
  fetchOneOutcome : NativeQuery → Except SqlxError SqliteRow
  fetchAllOutcome : NativeQuery → Except SqlxError (List SqliteRow)
  beginOutcome : Except SqlxError Unit

/-- A native Postgres pool, modelled by the outcome of `pool.acquire()`. -/
structure PgPool where
  acquireOutcome : Except SqlxError PgConn

/-- A native SQLite pool, modelled the same way. -/
structure SqlitePool where
  acquireOutcome : Except SqlxError SqliteConn

/-- Source `SqlxPostgresPoolConnection` (sqlx_postgres.rs). -/
structure SqlxPostgresPoolConnection where
  pool : PgPool

/-- Source `SqlxSqlitePoolConnection` (sqlx_sqlite.rs). -/
structure SqlxSqlitePoolConnection where
  pool : SqlitePool

/-- Source `DatabaseConnection`: closed set of pooled-connection variants. -/
inductive DatabaseConnection where
  | SqlxPostgresPoolConnection (conn : SeaOrm.SqlxPostgresPoolConnection)
  | SqlxSqlitePoolConnection (conn : SeaOrm.SqlxSqlitePoolConnection)

/-- Modelled from the spec: the error translator `sqlx_error_to_exec_err`
(src/driver/sqlx_common.rs, not among the sampled sources). Per the spec,
"`execute` maps any native error to `DbErr::Exec`", attaching a descriptive
message. -/
def sqlx_error_to_exec_err (err : SqlxError) : DbErr :=
  DbErr.Exec err.toString

/-- Modelled from the spec: the error translator `sqlx_error_to_query_err`
(src/driver/sqlx_common.rs, not among the sampled sources). Per the spec,
read-path native errors map to `DbErr::Query` with a descriptive message. -/
def sqlx_error_to_query_err (err : SqlxError) : DbErr :=
  DbErr.Query err.toString

/-- Source `SqlxPostgresConnector::accepts`: true exactly when the connection
string starts with "postgres://" (Rust `str::starts_with`, modelled as a
character-list prefix test). -/
def SqlxPostgresConnector.accepts (string : String) : Bool :=
  "postgres://".data.isPrefixOf string.data

/-- Source `SqlxSqliteConnector::accepts`: true exactly when the connection string
starts with "sqlite:". -/
def SqlxSqliteConnector.accepts (string : String) : Bool :=
  "sqlite:".data.isPrefixOf string.data

/-- Source `SqlxPostgresConnector::connect`: `PgPool::connect` (native, modelled
as an outcome oracle over the connection string) either yields a pool,
which is wrapped in the Postgres façade variant, or fails, in which case
the native error is discarded and `DbErr::Conn("Failed to connect.")` is
returned. -/
def SqlxPostgresConnector.connect (nativeConnect : String → Except SqlxError PgPool)
    (string : String) : Except DbErr DatabaseConnection :=
  match nativeConnect string with
  | .ok pool =>
      .ok (DatabaseConnection.SqlxPostgresPoolConnection ⟨pool⟩)
  | .error _ =>
      .error (DbErr.Conn "Failed to connect.")

/-- Source `SqlxSqliteConnector::connect`: same shape for the SQLite backend. -/
def SqlxSqliteConnector.connect (nativeConnect : String → Except SqlxError SqlitePool)
    (string : String) : Except DbErr DatabaseConnection :=
  match nativeConnect string with
  | .ok pool =>
      .ok (DatabaseConnection.SqlxSqlitePoolConnection ⟨pool⟩)
  | .error _ =>
      .error (DbErr.Conn "Failed to connect.")

/-- Source `SqlxPostgresPoolConnection::execute` (sqlx_postgres.rs lines 43-57):
build the native query, acquire a connection from the pool (failure yields
`DbErr::Exec("Failed to acquire connection from pool.")`), execute it, and
translate success via `From<PgQueryResult>` and failure via
`sqlx_error_to_exec_err`. -/
def SqlxPostgresPoolConnection.execute (c : SqlxPostgresPoolConnection)
    (stmt : Statement) : Except DbErr ExecResult :=
  let query := pg_sqlx_query stmt
  match c.pool.acquireOutcome with
  | .ok conn =>
      match conn.execOutcome query with
      | .ok res => .ok (ExecResult.fromPgQueryResult res)
      | .error err => .error (sqlx_error_to_exec_err err)
  | .error _ =>
      .error (DbErr.Exec "Failed to acquire connection from pool.")

/-- Source `SqlxPostgresPoolConnection::query_one` (sqlx_postgres.rs lines 59-76):
fetch one row; `RowNotFound` becomes `Ok(None)`, any other native error
becomes `DbErr::Query(err.to_string())`; pool-acquisition failure yields
`DbErr::Query("Failed to acquire connection from pool.")`. -/
def SqlxPostgresPoolConnection.query_one (c : SqlxPostgresPoolConnection)
    (stmt : Statement) : Except DbErr (Option QueryResult) :=
  let query := pg_sqlx_query stmt
  match c.pool.acquireOutcome with
  | .ok conn =>
      match conn.fetchOneOutcome query with
      | .ok row => .ok (some (QueryResult.fromPgRow row))
      | .error err =>
          match err with
          | .RowNotFound => .ok none
          | _ => .error (DbErr.Query err.toString)
  | .error _ =>
      .error (DbErr.Query "Failed to acquire connection from pool.")

/-- Source `SqlxPostgresPoolConnection::query_all` (sqlx_postgres.rs lines 78-92):
fetch all rows and convert each via `From<PgRow>`; native fetch failure is
translated by `sqlx_error_to_query_err`; pool-acquisition failure yields
`DbErr::Query("Failed to acquire connection from pool.")`. -/
def SqlxPostgresPoolConnection.query_all (c : SqlxPostgresPoolConnection)
    (stmt : Statement) : Except DbErr (List QueryResult) :=
  let query := pg_sqlx_query stmt
  match c.pool.acquireOutcome with
  | .ok conn =>
      match conn.fetchAllOutcome query with
      | .ok rows => .ok (rows.map QueryResult.fromPgRow)
      | .error err => .error (sqlx_error_to_query_err err)
  | .error _ =>
      .error (DbErr.Query "Failed to acquire connection from pool.")

/-- Source `SqlxSqlitePoolConnection::execute` (sqlx_sqlite.rs lines 43-57). -/
def SqlxSqlitePoolConnection.execute (c : SqlxSqlitePoolConnection)
    (stmt : Statement) : Except DbErr ExecResult :=
  let query := sqlite_sqlx_query stmt
  match c.pool.acquireOutcome with
  | .ok conn =>
      match conn.execOutcome query with
      | .ok res => .ok (ExecResult.fromSqliteQueryResult res)
      | .error err => .error (sqlx_error_to_exec_err err)
  | .error _ =>
      .error (DbErr.Exec "Failed to acquire connection from pool.")

/-- Source `SqlxSqlitePoolConnection::query_one` (sqlx_sqlite.rs lines 59-76). -/
def SqlxSqlitePoolConnection.query_one (c : SqlxSqlitePoolConnection)
    (stmt : Statement) : Except DbErr (Option QueryResult) :=
  let query := sqlite_sqlx_query stmt
  match c.pool.acquireOutcome with
  | .ok conn =>
      match conn.fetchOneOutcome query with
      | .ok row => .ok (some (QueryResult.fromSqliteRow row))
      | .error err =>
          match err with
          | .RowNotFound => .ok none
          | _ => .error (DbErr.Query err.toString)
  | .error _ =>
      .error (DbErr.Query "Failed to acquire connection from pool.")

/-- Source `SqlxSqlitePoolConnection::query_all` (sqlx_sqlite.rs lines 78-92). -/
def SqlxSqlitePoolConnection.query_all (c : SqlxSqlitePoolConnection)
    (stmt : Statement) : Except DbErr (List QueryResult) :=
  let query := sqlite_sqlx_query stmt
  match c.pool.acquireOutcome with
  | .ok conn =>
      match conn.fetchAllOutcome query with
      | .ok rows => .ok (rows.map QueryResult.fromSqliteRow)
      | .error err => .error (sqlx_error_to_query_err err)
  | .error _ =>
      .error (DbErr.Query "Failed to acquire connection from pool.")

/-- The native commit-or-rollback action the transaction engine performed. -/
inductive TxAction where
  | commit
  | rollback
deriving DecidableEq

/-- Modelled from the spec: `DatabaseTransaction::run` — the transaction
engine (src/database/transaction.rs, not among the sampled sources).
Per the spec state machine (rules 4 and 5): if the unit of work completes
with success the engine commits the native transaction, returning the
success value, with commit failure reported as
`TransactionError::Connection(DbErr)`; if it completes with failure `E`
the engine rolls back and reports `TransactionError::Transaction(E)`,
discarding any commit attempt. The value also records which native
terminal action (commit or rollback) was issued. The unit of work is
represented by its completion value; the native commit call by its
outcome oracle. -/
def DatabaseTransaction.run {T E : Type} (callbackResult : Except E T)
    (commitOutcome : Except SqlxError Unit) :
    Except (TransactionError E) T × TxAction :=
  match callbackResult with
  | .ok value =>
      match commitOutcome with
      | .ok _ => (.ok value, TxAction.commit)
      | .error err =>
          (.error (TransactionError.Connection (DbErr.Query err.toString)),
           TxAction.commit)
  | .error err => (.error (TransactionError.Transaction err), TxAction.rollback)

/-- Source `SqlxPostgresPoolConnection::transaction` (sqlx_postgres.rs lines
94-112): acquire a connection (failure yields
`TransactionError::Connection(DbErr::Query("Failed to acquire connection
from pool."))`), begin a native transaction (failure yields
`TransactionError::Connection(DbErr::Query(e.to_string()))`), then hand
off to the transaction engine. The unit of work of the caller is represented by
its completion value `callbackResult`, consumed only by the engine. -/
def SqlxPostgresPoolConnection.transaction {T E : Type}
    (c : SqlxPostgresPoolConnection) (callbackResult : Except E T)
    (commitOutcome : Except SqlxError Unit) : Except (TransactionError E) T :=
  match c.pool.acquireOutcome with
  | .ok conn =>
      match conn.beginOutcome with
      | .ok _ => (DatabaseTransaction.run callbackResult commitOutcome).1
      | .error err =>
          .error (TransactionError.Connection (DbErr.Query err.toString))
  | .error _ =>
      .error (TransactionError.Connection
        (DbErr.Query "Failed to acquire connection from pool."))

/-- Source `SqlxSqlitePoolConnection::transaction` (sqlx_sqlite.rs lines 94-112). -/
def SqlxSqlitePoolConnection.transaction {T E : Type}
    (c : SqlxSqlitePoolConnection) (callbackResult : Except E T)
    (commitOutcome : Except SqlxError Unit) : Except (TransactionError E) T :=
  match c.pool.acquireOutcome with
  | .ok conn =>
      match conn.beginOutcome with
      | .ok _ => (DatabaseTransaction.run callbackResult commitOutcome).1
      | .error err =>
          .error (TransactionError.Connection (DbErr.Query err.toString))
  | .error _ =>
      .error (TransactionError.Connection
        (DbErr.Query "Failed to acquire connection from pool."))

/-- Whether a wrapped row carries the Postgres backend tag. -/
def QueryResultRow.isPostgresTag : QueryResultRow → Bool
  | .SqlxPostgres _ => true
  | .SqlxSqlite _ => false

/-- Whether a wrapped row carries the SQLite backend tag. -/
def QueryResultRow.isSqliteTag : QueryResultRow → Bool
  | .SqlxPostgres _ => false
  | .SqlxSqlite _ => true

/-- Whether a wrapped execution result carries the Postgres backend tag. -/
def ExecResultHolder.isPostgresTag : ExecResultHolder → Bool
  | .SqlxPostgres _ => true
  | .SqlxSqlite _ => false

/-- Whether a wrapped execution result carries the SQLite backend tag. -/
def ExecResultHolder.isSqliteTag : ExecResultHolder → Bool
  | .SqlxPostgres _ => false
  | .SqlxSqlite _ => true

/-- Payload-preserving translation of a native Postgres row into a native
SQLite row, used to compare the two driver implementations. -/
def PgRow.toSqliteRow (r : PgRow) : SqliteRow :=
  ⟨r.payload⟩

/-- Payload-preserving translation of native execution results. -/
def PgQueryResult.toSqliteQueryResult (r : PgQueryResult) : SqliteQueryResult :=
  ⟨r.payload⟩

/-- Translate a modelled Postgres connection into the SQLite connection
whose native calls produce the corresponding outcomes. -/
def PgConn.toSqliteConn (conn : PgConn) : SqliteConn :=
  ⟨fun q => (conn.execOutcome q).map PgQueryResult.toSqliteQueryResult,
   fun q => (conn.fetchOneOutcome q).map PgRow.toSqliteRow,
   fun q => (conn.fetchAllOutcome q).map (List.map PgRow.toSqliteRow),
   conn.beginOutcome⟩

/-- Translate a modelled Postgres pooled connection into the corresponding
SQLite pooled connection. -/
def SqlxPostgresPoolConnection.toSqlite (c : SqlxPostgresPoolConnection) :
    SqlxSqlitePoolConnection :=
  ⟨⟨c.pool.acquireOutcome.map PgConn.toSqliteConn⟩⟩

/-- Swap a Postgres-tagged query result to the SQLite tag with the
corresponding payload. -/
def QueryResult.retag : QueryResult → QueryResult
  | ⟨.SqlxPostgres r⟩ => ⟨.SqlxSqlite r.toSqliteRow⟩
  | x => x

/-- Swap a Postgres-tagged execution result to the SQLite tag with the
corresponding payload. -/
def ExecResult.retag : ExecResult → ExecResult
  | ⟨.SqlxPostgres r⟩ => ⟨.SqlxSqlite r.toSqliteQueryResult⟩
  | x => x

/-- A Postgres connection with constant native outcomes. -/
def PgConn.const (ex : Except SqlxError PgQueryResult)
    (f1 : Except SqlxError PgRow) (fa : Except SqlxError (List PgRow))
    (b : Except SqlxError Unit) : PgConn :=
  ⟨fun _ => ex, fun _ => f1, fun _ => fa, b⟩

/-- A SQLite connection with constant native outcomes. -/
def SqliteConn.const (ex : Except SqlxError SqliteQueryResult)
    (f1 : Except SqlxError SqliteRow) (fa : Except SqlxError (List SqliteRow))
    (b : Except SqlxError Unit) : SqliteConn :=
  ⟨fun _ => ex, fun _ => f1, fun _ => fa, b⟩

/-- A concrete statement used to instantiate the driver methods. -/
def stmtSelect : Statement :=
  ⟨"SELECT 1", none⟩

/-- A concrete Postgres connection whose native fetches and executes fail
with an opaque error whose display text coincides with the driver
pool-acquisition message. -/
def pgConnAcquireMsgErr : PgConn :=
  PgConn.const
    (Except.error (SqlxError.Other "Failed to acquire connection from pool."))
    (Except.error (SqlxError.Other "Failed to acquire connection from pool."))
    (Except.error (SqlxError.Other "Failed to acquire connection from pool."))
    (Except.ok ())

/-- A concrete Postgres connection on which every native call succeeds. -/
def pgConnAllOk : PgConn :=
  PgConn.const (Except.ok ⟨1⟩) (Except.ok ⟨2⟩) (Except.ok [⟨3⟩]) (Except.ok ())

/-- A concrete SQLite connection on which every native call succeeds. -/
def sqliteConnAllOk : SqliteConn :=
  SqliteConn.const (Except.ok ⟨1⟩) (Except.ok ⟨2⟩) (Except.ok [⟨3⟩]) (Except.ok ())

/-- C1: if the unit of work completes with success the engine commits the
native transaction and the `transaction` call returns that success value
(commit failure is reported as `TransactionError.Connection`); if it
completes with failure `e` the engine rolls back, discards any commit
attempt (the result does not depend on the commit outcome), and the call
returns `TransactionError.Transaction e` carrying the original error
unchanged. Stated for the engine and for both pooled connections. -/
theorem C1_transaction_commit_and_rollback {T E : Type}
    (exF : NativeQuery → Except SqlxError PgQueryResult)
    (f1F : NativeQuery → Except SqlxError PgRow)
    (faF : NativeQuery → Except SqlxError (List PgRow))
    (sexF : NativeQuery → Except SqlxError SqliteQueryResult)
    (sf1F : NativeQuery → Except SqlxError SqliteRow)
    (sfaF : NativeQuery → Except SqlxError (List SqliteRow))
    (t : T) (e : E) (cf : SqlxError) (commitOutcome : Except SqlxError Unit) :
    DatabaseTransaction.run (Except.ok t : Except E T) (Except.ok ())
      = (Except.ok t, TxAction.commit) ∧
    SqlxPostgresPoolConnection.transaction ⟨⟨Except.ok ⟨exF, f1F, faF, Except.ok ()⟩⟩⟩
      (Except.ok t : Except E T) (Except.ok ()) = Except.ok t ∧
    SqlxSqlitePoolConnection.transaction ⟨⟨Except.ok ⟨sexF, sf1F, sfaF, Except.ok ()⟩⟩⟩
      (Except.ok t : Except E T) (Except.ok ()) = Except.ok t ∧
    DatabaseTransaction.run (Except.ok t : Except E T) (Except.error cf)
      = (Except.error (TransactionError.Connection (DbErr.Query cf.toString)),
         TxAction.commit) ∧
    DatabaseTransaction.run (Except.error e : Except E T) commitOutcome
      = (Except.error (TransactionError.Transaction e), TxAction.rollback) ∧
    SqlxPostgresPoolConnection.transaction ⟨⟨Except.ok ⟨exF, f1F, faF, Except.ok ()⟩⟩⟩
      (Except.error e : Except E T) commitOutcome
      = Except.error (TransactionError.Transaction e) ∧
    SqlxSqlitePoolConnection.transaction ⟨⟨Except.ok ⟨sexF, sf1F, sfaF, Except.ok ()⟩⟩⟩
      (Except.error e : Except E T) commitOutcome
      = Except.error (TransactionError.Transaction e) :=
  ⟨rfl, rfl, rfl, rfl, rfl, rfl, rfl⟩

/-- C2: `query_one` returns `Ok(None)` when the native fetch reports the
no-rows condition, `Ok(Some(row))` when the fetch succeeds with a row, and
maps every other native error to `Err(DbErr.Query)`; a zero-row result is
never an error. Stated for both pooled connections. -/
theorem C2_query_one_row_mapping (conn : PgConn) (sconn : SqliteConn)
    (stmt : Statement) :
    (∀ row, conn.fetchOneOutcome (pg_sqlx_query stmt) = Except.ok row →
      SqlxPostgresPoolConnection.query_one ⟨⟨Except.ok conn⟩⟩ stmt
        = Except.ok (some (QueryResult.fromPgRow row))) ∧
    (conn.fetchOneOutcome (pg_sqlx_query stmt) = Except.error SqlxError.RowNotFound →
      SqlxPostgresPoolConnection.query_one ⟨⟨Except.ok conn⟩⟩ stmt
        = Except.ok none) ∧
    (∀ msg, conn.fetchOneOutcome (pg_sqlx_query stmt)
        = Except.error (SqlxError.Other msg) →
      SqlxPostgresPoolConnection.query_one ⟨⟨Except.ok conn⟩⟩ stmt
        = Except.error (DbErr.Query msg)) ∧
    (∀ row, sconn.fetchOneOutcome (sqlite_sqlx_query stmt) = Except.ok row →
      SqlxSqlitePoolConnection.query_one ⟨⟨Except.ok sconn⟩⟩ stmt
        = Except.ok (some (QueryResult.fromSqliteRow row))) ∧
    (sconn.fetchOneOutcome (sqlite_sqlx_query stmt)
        = Except.error SqlxError.RowNotFound →
      SqlxSqlitePoolConnection.query_one ⟨⟨Except.ok sconn⟩⟩ stmt
        = Except.ok none) ∧
    (∀ msg, sconn.fetchOneOutcome (sqlite_sqlx_query stmt)
        = Except.error (SqlxError.Other msg) →
      SqlxSqlitePoolConnection.query_one ⟨⟨Except.ok sconn⟩⟩ stmt
        = Except.error (DbErr.Query msg)) := by
  refine ⟨?_, ?_, ?_, ?_, ?_, ?_⟩
  · intro row h
    simp [SqlxPostgresPoolConnection.query_one, h]
  · intro h
    simp [SqlxPostgresPoolConnection.query_one, h]
  · intro msg h
    simp [SqlxPostgresPoolConnection.query_one, h, SqlxError.toString]
  · intro row h
    simp [SqlxSqlitePoolConnection.query_one, h]
  · intro h
    simp [SqlxSqlitePoolConnection.query_one, h]
  · intro msg h
    simp [SqlxSqlitePoolConnection.query_one, h, SqlxError.toString]

/-- Witness for C2 at concrete connections: a successful fetch, a no-rows
fetch and an opaque native error on each backend. -/
theorem C2_query_one_row_mapping_witness :
    SqlxPostgresPoolConnection.query_one
      ⟨⟨Except.ok pgConnAllOk⟩⟩ stmtSelect
      = Except.ok (some (QueryResult.fromPgRow ⟨2⟩)) ∧
    SqlxPostgresPoolConnection.query_one
      ⟨⟨Except.ok (PgConn.const (Except.ok ⟨1⟩)
          (Except.error SqlxError.RowNotFound) (Except.ok []) (Except.ok ()))⟩⟩
      stmtSelect = Except.ok none ∧
    SqlxPostgresPoolConnection.query_one
      ⟨⟨Except.ok (PgConn.const (Except.ok ⟨1⟩)
          (Except.error (SqlxError.Other "bad column")) (Except.ok [])
          (Except.ok ()))⟩⟩ stmtSelect
      = Except.error (DbErr.Query "bad column") ∧
    SqlxSqlitePoolConnection.query_one
      ⟨⟨Except.ok sqliteConnAllOk⟩⟩ stmtSelect
      = Except.ok (some (QueryResult.fromSqliteRow ⟨2⟩)) := by
  refine ⟨?_, ?_, ?_, ?_⟩
  · exact (C2_query_one_row_mapping pgConnAllOk sqliteConnAllOk stmtSelect).1 ⟨2⟩ rfl
  · exact (C2_query_one_row_mapping
      (PgConn.const (Except.ok ⟨1⟩) (Except.error SqlxError.RowNotFound)
        (Except.ok []) (Except.ok ())) sqliteConnAllOk stmtSelect).2.1 rfl
  · exact (C2_query_one_row_mapping
      (PgConn.const (Except.ok ⟨1⟩) (Except.error (SqlxError.Other "bad column"))
        (Except.ok []) (Except.ok ())) sqliteConnAllOk stmtSelect).2.2.1
      "bad column" rfl
  · exact (C2_query_one_row_mapping pgConnAllOk sqliteConnAllOk
      stmtSelect).2.2.2.1 ⟨2⟩ rfl

/-- C3 counterexample: pool-acquisition failure is NOT reported as a value
distinct from a query-level error. On `query_one`, a failed acquire and a
native fetch error whose display text is the acquisition message produce
the identical `DbErr.Query` value; on `execute`, a failed acquire and a
native execution error likewise produce the identical `DbErr.Exec` value.
A caller therefore cannot distinguish infrastructure exhaustion from a
query defect by the returned error. -/
theorem C3_pool_acquire_error_counterexample :
    SqlxPostgresPoolConnection.query_one
      ⟨⟨Except.error (SqlxError.Other "pool closed")⟩⟩ stmtSelect
      = Except.error (DbErr.Query "Failed to acquire connection from pool.") ∧
    SqlxPostgresPoolConnection.query_one
      ⟨⟨Except.ok pgConnAcquireMsgErr⟩⟩ stmtSelect
      = Except.error (DbErr.Query "Failed to acquire connection from pool.") ∧
    SqlxPostgresPoolConnection.execute
      ⟨⟨Except.error (SqlxError.Other "pool closed")⟩⟩ stmtSelect
      = Except.error (DbErr.Exec "Failed to acquire connection from pool.") ∧
    SqlxPostgresPoolConnection.execute
      ⟨⟨Except.ok pgConnAcquireMsgErr⟩⟩ stmtSelect
      = Except.error (DbErr.Exec "Failed to acquire connection from pool.") :=
  ⟨rfl, rfl, rfl, rfl⟩

/-- C3 (amended): pool-acquisition failure in `execute`, `query_one` and
`query_all` is reported as a `DbErr` with the fixed message "Failed to
acquire connection from pool.", using the same error kind as the
operation-level errors of that method (`Exec` for `execute`, `Query` for
the fetches); it is distinguishable only by its message text, not by its
kind. Stated for both pooled connections and any native acquire error. -/
theorem C3_pool_acquire_error_values (e : SqlxError) (stmt : Statement) :
    SqlxPostgresPoolConnection.execute ⟨⟨Except.error e⟩⟩ stmt
      = Except.error (DbErr.Exec "Failed to acquire connection from pool.") ∧
    SqlxPostgresPoolConnection.query_one ⟨⟨Except.error e⟩⟩ stmt
      = Except.error (DbErr.Query "Failed to acquire connection from pool.") ∧
    SqlxPostgresPoolConnection.query_all ⟨⟨Except.error e⟩⟩ stmt
      = Except.error (DbErr.Query "Failed to acquire connection from pool.") ∧
    SqlxSqlitePoolConnection.execute ⟨⟨Except.error e⟩⟩ stmt
      = Except.error (DbErr.Exec "Failed to acquire connection from pool.") ∧
    SqlxSqlitePoolConnection.query_one ⟨⟨Except.error e⟩⟩ stmt
      = Except.error (DbErr.Query "Failed to acquire connection from pool.") ∧
    SqlxSqlitePoolConnection.query_all ⟨⟨Except.error e⟩⟩ stmt
      = Except.error (DbErr.Query "Failed to acquire connection from pool.") :=
  ⟨rfl, rfl, rfl, rfl, rfl, rfl⟩

/-- C4: on `transaction`, failure to acquire a connection from the pool or
to begin the native transaction is reported as
`TransactionError.Connection (DbErr.Query ...)`, and the unit of work is
never invoked: the result does not depend on the unit of work or on the
commit outcome. Stated for both pooled connections. -/
theorem C4_transaction_infra_failure {T E : Type}
    (acqErr beginErr : SqlxError)
    (exF : NativeQuery → Except SqlxError PgQueryResult)
    (f1F : NativeQuery → Except SqlxError PgRow)
    (faF : NativeQuery → Except SqlxError (List PgRow))
    (sexF : NativeQuery → Except SqlxError SqliteQueryResult)
    (sf1F : NativeQuery → Except SqlxError SqliteRow)
    (sfaF : NativeQuery → Except SqlxError (List SqliteRow))
    (cb cb2 : Except E T) (co co2 : Except SqlxError Unit) :
    SqlxPostgresPoolConnection.transaction ⟨⟨Except.error acqErr⟩⟩ cb co
      = Except.error (TransactionError.Connection
          (DbErr.Query "Failed to acquire connection from pool.")) ∧
    SqlxPostgresPoolConnection.transaction
      ⟨⟨Except.ok ⟨exF, f1F, faF, Except.error beginErr⟩⟩⟩ cb co
      = Except.error (TransactionError.Connection
          (DbErr.Query beginErr.toString)) ∧
    SqlxPostgresPoolConnection.transaction ⟨⟨Except.error acqErr⟩⟩ cb co
      = SqlxPostgresPoolConnection.transaction ⟨⟨Except.error acqErr⟩⟩ cb2 co2 ∧
    SqlxPostgresPoolConnection.transaction
      ⟨⟨Except.ok ⟨exF, f1F, faF, Except.error beginErr⟩⟩⟩ cb co
      = SqlxPostgresPoolConnection.transaction
          ⟨⟨Except.ok ⟨exF, f1F, faF, Except.error beginErr⟩⟩⟩ cb2 co2 ∧
    SqlxSqlitePoolConnection.transaction ⟨⟨Except.error acqErr⟩⟩ cb co
      = Except.error (TransactionError.Connection
          (DbErr.Query "Failed to acquire connection from pool.")) ∧
    SqlxSqlitePoolConnection.transaction
      ⟨⟨Except.ok ⟨sexF, sf1F, sfaF, Except.error beginErr⟩⟩⟩ cb co
      = Except.error (TransactionError.Connection
          (DbErr.Query beginErr.toString)) ∧
    SqlxSqlitePoolConnection.transaction ⟨⟨Except.error acqErr⟩⟩ cb co
      = SqlxSqlitePoolConnection.transaction ⟨⟨Except.error acqErr⟩⟩ cb2 co2 ∧
    SqlxSqlitePoolConnection.transaction
      ⟨⟨Except.ok ⟨sexF, sf1F, sfaF, Except.error beginErr⟩⟩⟩ cb co
      = SqlxSqlitePoolConnection.transaction
          ⟨⟨Except.ok ⟨sexF, sf1F, sfaF, Except.error beginErr⟩⟩⟩ cb2 co2 :=
  ⟨rfl, rfl, rfl, rfl, rfl, rfl, rfl, rfl⟩

/-- C5: when a connection was acquired and the native execution fails,
`execute` returns `Err(DbErr.Exec ...)`: every native execution error is
translated to the `Exec` kind carrying the native display text, never
exposed directly. Stated for both pooled connections. -/
theorem C5_execute_maps_native_error_to_exec (conn : PgConn)
    (sconn : SqliteConn) (stmt : Statement) :
    (∀ err, conn.execOutcome (pg_sqlx_query stmt) = Except.error err →
      SqlxPostgresPoolConnection.execute ⟨⟨Except.ok conn⟩⟩ stmt
        = Except.error (DbErr.Exec err.toString)) ∧
    (∀ err, sconn.execOutcome (sqlite_sqlx_query stmt) = Except.error err →
      SqlxSqlitePoolConnection.execute ⟨⟨Except.ok sconn⟩⟩ stmt
        = Except.error (DbErr.Exec err.toString)) := by
  constructor
  · intro err h
    simp [SqlxPostgresPoolConnection.execute, h, sqlx_error_to_exec_err]
  · intro err h
    simp [SqlxSqlitePoolConnection.execute, h, sqlx_error_to_exec_err]

/-- Witness for C5 at a concrete native execution error on each backend. -/
theorem C5_execute_maps_native_error_to_exec_witness :
    SqlxPostgresPoolConnection.execute
      ⟨⟨Except.ok (PgConn.const (Except.error (SqlxError.Other "duplicate key"))
          (Except.ok ⟨0⟩) (Except.ok []) (Except.ok ()))⟩⟩ stmtSelect
      = Except.error (DbErr.Exec "duplicate key") ∧
    SqlxSqlitePoolConnection.execute
      ⟨⟨Except.ok (SqliteConn.const (Except.error (SqlxError.Other "duplicate key"))
          (Except.ok ⟨0⟩) (Except.ok []) (Except.ok ()))⟩⟩ stmtSelect
      = Except.error (DbErr.Exec "duplicate key") := by
  constructor
  · exact (C5_execute_maps_native_error_to_exec
      (PgConn.const (Except.error (SqlxError.Other "duplicate key"))
        (Except.ok ⟨0⟩) (Except.ok []) (Except.ok ()))
      sqliteConnAllOk stmtSelect).1 (SqlxError.Other "duplicate key") rfl
  · exact (C5_execute_maps_native_error_to_exec pgConnAllOk
      (SqliteConn.const (Except.error (SqlxError.Other "duplicate key"))
        (Except.ok ⟨0⟩) (Except.ok []) (Except.ok ()))
      stmtSelect).2 (SqlxError.Other "duplicate key") rfl

/-- C6: for every connection string, each connector either succeeds,
returning the façade holding its own variant wrapping the opened pool, or
fails with `DbErr.Conn` on any native connection error; no other outcome
is possible. -/
theorem C6_connect_outcomes (ncPg : String → Except SqlxError PgPool)
    (ncLite : String → Except SqlxError SqlitePool) (s : String) :
    ((∃ pool, ncPg s = Except.ok pool ∧
        SqlxPostgresConnector.connect ncPg s
          = Except.ok (DatabaseConnection.SqlxPostgresPoolConnection ⟨pool⟩)) ∨
      SqlxPostgresConnector.connect ncPg s
        = Except.error (DbErr.Conn "Failed to connect.")) ∧
    ((∃ pool, ncLite s = Except.ok pool ∧
        SqlxSqliteConnector.connect ncLite s
          = Except.ok (DatabaseConnection.SqlxSqlitePoolConnection ⟨pool⟩)) ∨
      SqlxSqliteConnector.connect ncLite s
        = Except.error (DbErr.Conn "Failed to connect.")) := by
  constructor
  · cases h : ncPg s with
    | ok pool =>
        exact Or.inl ⟨pool, rfl, by simp [SqlxPostgresConnector.connect, h]⟩
    | error e =>
        exact Or.inr (by simp [SqlxPostgresConnector.connect, h])
  · cases h : ncLite s with
    | ok pool =>
        exact Or.inl ⟨pool, rfl, by simp [SqlxSqliteConnector.connect, h]⟩
    | error e =>
        exact Or.inr (by simp [SqlxSqliteConnector.connect, h])

/-- C7: the Postgres connector accepts exactly the strings starting with
"postgres://", the SQLite connector exactly those starting with "sqlite:",
and no string is accepted by both connectors. -/
theorem C7_accepts_prefixes_disjoint (s : String) :
    (SqlxPostgresConnector.accepts s = true ↔ "postgres://".data <+: s.data) ∧
    (SqlxSqliteConnector.accepts s = true ↔ "sqlite:".data <+: s.data) ∧
    (SqlxPostgresConnector.accepts s && SqlxSqliteConnector.accepts s) = false := by
  refine ⟨List.isPrefixOf_iff_prefix, List.isPrefixOf_iff_prefix, ?_⟩
  cases hp : SqlxPostgresConnector.accepts s with
  | false => simp [hp]
  | true =>
    cases hq : SqlxSqliteConnector.accepts s with
    | false => simp [hp, hq]
    | true =>
      exfalso
      have p1 : "postgres://".data <+: s.data := List.isPrefixOf_iff_prefix.mp hp
      have p2 : "sqlite:".data <+: s.data := List.isPrefixOf_iff_prefix.mp hq
      obtain ⟨t1, e1⟩ := p1
      obtain ⟨t2, e2⟩ := p2
      rw [← e2] at e1
      have hh := congrArg List.head? e1
      simp at hh

/-- C8: the translation of a `Statement` into the native prepared query
passes the SQL text verbatim and binds exactly the bind values, in order;
when the values field is absent nothing is bound. Stated for both
backends, covering both shapes of the values field. -/
theorem C8_sqlx_query_translation (sql : String) (values : List Value) :
    pg_sqlx_query ⟨sql, some values⟩ = ⟨sql, values⟩ ∧
    pg_sqlx_query ⟨sql, none⟩ = ⟨sql, []⟩ ∧
    sqlite_sqlx_query ⟨sql, some values⟩ = ⟨sql, values⟩ ∧
    sqlite_sqlx_query ⟨sql, none⟩ = ⟨sql, []⟩ :=
  ⟨rfl, rfl, rfl, rfl⟩

/-- C9: every result produced by the `execute` of a backend, `query_one` or
`query_all` carries the variant tag of that backend: the Postgres pooled
connection only constructs Postgres-tagged results, the SQLite pooled
connection only SQLite-tagged ones. -/
theorem C9_results_carry_producing_backend_tag
    (c : SqlxPostgresPoolConnection) (sc : SqlxSqlitePoolConnection)
    (stmt : Statement) :
    (∀ res, c.execute stmt = Except.ok res → res.result.isPostgresTag = true) ∧
    (∀ qr, c.query_one stmt = Except.ok (some qr) → qr.row.isPostgresTag = true) ∧
    (∀ qrs, c.query_all stmt = Except.ok qrs →
      ∀ qr ∈ qrs, qr.row.isPostgresTag = true) ∧
    (∀ res, sc.execute stmt = Except.ok res → res.result.isSqliteTag = true) ∧
    (∀ qr, sc.query_one stmt = Except.ok (some qr) → qr.row.isSqliteTag = true) ∧
    (∀ qrs, sc.query_all stmt = Except.ok qrs →
      ∀ qr ∈ qrs, qr.row.isSqliteTag = true) := by
  refine ⟨?_, ?_, ?_, ?_, ?_, ?_⟩
  · intro res h
    cases hacq : c.pool.acquireOutcome with
    | error e => simp [SqlxPostgresPoolConnection.execute, hacq] at h
    | ok conn =>
      cases hex : conn.execOutcome (pg_sqlx_query stmt) with
      | error e => simp [SqlxPostgresPoolConnection.execute, hacq, hex] at h
      | ok r =>
        simp [SqlxPostgresPoolConnection.execute, hacq, hex] at h
        subst h
        rfl
  · intro qr h
    cases hacq : c.pool.acquireOutcome with
    | error e => simp [SqlxPostgresPoolConnection.query_one, hacq] at h
    | ok conn =>
      cases hf : conn.fetchOneOutcome (pg_sqlx_query stmt) with
      | error e =>
        cases e <;> simp [SqlxPostgresPoolConnection.query_one, hacq, hf] at h
      | ok row =>
        simp [SqlxPostgresPoolConnection.query_one, hacq, hf] at h
        subst h
        rfl
  · intro qrs h qr hmem
    cases hacq : c.pool.acquireOutcome with
    | error e => simp [SqlxPostgresPoolConnection.query_all, hacq] at h
    | ok conn =>
      cases hf : conn.fetchAllOutcome (pg_sqlx_query stmt) with
      | error e => simp [SqlxPostgresPoolConnection.query_all, hacq, hf] at h
      | ok rows =>
        simp [SqlxPostgresPoolConnection.query_all, hacq, hf] at h
        subst h
        rcases List.mem_map.mp hmem with ⟨row, hrow, hqr⟩
        rw [← hqr]
        rfl
  · intro res h
    cases hacq : sc.pool.acquireOutcome with
    | error e => simp [SqlxSqlitePoolConnection.execute, hacq] at h
    | ok conn =>
      cases hex : conn.execOutcome (sqlite_sqlx_query stmt) with
      | error e => simp [SqlxSqlitePoolConnection.execute, hacq, hex] at h
      | ok r =>
        simp [SqlxSqlitePoolConnection.execute, hacq, hex] at h
        subst h
        rfl
  · intro qr h
    cases hacq : sc.pool.acquireOutcome with
    | error e => simp [SqlxSqlitePoolConnection.query_one, hacq] at h
    | ok conn =>
      cases hf : conn.fetchOneOutcome (sqlite_sqlx_query stmt) with
      | error e =>
        cases e <;> simp [SqlxSqlitePoolConnection.query_one, hacq, hf] at h
      | ok row =>
        simp [SqlxSqlitePoolConnection.query_one, hacq, hf] at h
        subst h
        rfl
  · intro qrs h qr hmem
    cases hacq : sc.pool.acquireOutcome with
    | error e => simp [SqlxSqlitePoolConnection.query_all, hacq] at h
    | ok conn =>
      cases hf : conn.fetchAllOutcome (sqlite_sqlx_query stmt) with
      | error e => simp [SqlxSqlitePoolConnection.query_all, hacq, hf] at h
      | ok rows =>
        simp [SqlxSqlitePoolConnection.query_all, hacq, hf] at h
        subst h
        rcases List.mem_map.mp hmem with ⟨row, hrow, hqr⟩
        rw [← hqr]
        rfl

/-- Witness for C9: each backend, run on an all-successful concrete
connection, yields results whose tag matches that backend. -/
theorem C9_results_tag_witness :
    SqlxPostgresPoolConnection.query_one ⟨⟨Except.ok pgConnAllOk⟩⟩ stmtSelect
      = Except.ok (some (QueryResult.fromPgRow ⟨2⟩)) ∧
    (QueryResult.fromPgRow ⟨2⟩).row.isPostgresTag = true ∧
    SqlxSqlitePoolConnection.query_one ⟨⟨Except.ok sqliteConnAllOk⟩⟩ stmtSelect
      = Except.ok (some (QueryResult.fromSqliteRow ⟨2⟩)) ∧
    (QueryResult.fromSqliteRow ⟨2⟩).row.isSqliteTag = true := by
  refine ⟨rfl, ?_, rfl, ?_⟩
  · exact (C9_results_carry_producing_backend_tag ⟨⟨Except.ok pgConnAllOk⟩⟩
      ⟨⟨Except.ok sqliteConnAllOk⟩⟩ stmtSelect).2.1 (QueryResult.fromPgRow ⟨2⟩) rfl
  · exact (C9_results_carry_producing_backend_tag ⟨⟨Except.ok pgConnAllOk⟩⟩
      ⟨⟨Except.ok sqliteConnAllOk⟩⟩ stmtSelect).2.2.2.2.1
      (QueryResult.fromSqliteRow ⟨2⟩) rfl

/-- The two statement translators are the same function. -/
theorem sqlite_sqlx_query_eq_pg : sqlite_sqlx_query = pg_sqlx_query :=
  rfl

/-- C10: the Postgres and SQLite pooled connections are behaviorally
identical up to the native driver: translating a Postgres connection into
the corresponding SQLite connection, each operation returns the same value
up to retagging successful results — in particular every failure branch
(pool acquisition, no-rows, native error, begin failure) produces the
identical `DbErr`/`TransactionError` value with the identical message, and
the statement translators coincide. -/
theorem C10_postgres_sqlite_equivalence {T E : Type}
    (c : SqlxPostgresPoolConnection) (stmt : Statement)
    (cb : Except E T) (co : Except SqlxError Unit) :
    pg_sqlx_query stmt = sqlite_sqlx_query stmt ∧
    (c.toSqlite).execute stmt = (c.execute stmt).map ExecResult.retag ∧
    (c.toSqlite).query_one stmt
      = (c.query_one stmt).map (Option.map QueryResult.retag) ∧
    (c.toSqlite).query_all stmt
      = (c.query_all stmt).map (List.map QueryResult.retag) ∧
    (c.toSqlite).transaction cb co = c.transaction cb co := by
  refine ⟨rfl, ?_, ?_, ?_, ?_⟩
  · cases hacq : c.pool.acquireOutcome with
    | error e =>
      simp [SqlxPostgresPoolConnection.execute, SqlxSqlitePoolConnection.execute,
        SqlxPostgresPoolConnection.toSqlite, hacq, Except.map]
    | ok conn =>
      cases hex : conn.execOutcome (pg_sqlx_query stmt) with
      | error e =>
        simp [SqlxPostgresPoolConnection.execute, SqlxSqlitePoolConnection.execute,
          SqlxPostgresPoolConnection.toSqlite, PgConn.toSqliteConn,
          sqlite_sqlx_query_eq_pg, hacq, hex, Except.map]
      | ok r =>
        simp [SqlxPostgresPoolConnection.execute, SqlxSqlitePoolConnection.execute,
          SqlxPostgresPoolConnection.toSqlite, PgConn.toSqliteConn,
          sqlite_sqlx_query_eq_pg, hacq, hex, Except.map,
          ExecResult.fromPgQueryResult, ExecResult.fromSqliteQueryResult,
          ExecResult.retag]
  · cases hacq : c.pool.acquireOutcome with
    | error e =>
      simp [SqlxPostgresPoolConnection.query_one, SqlxSqlitePoolConnection.query_one,
        SqlxPostgresPoolConnection.toSqlite, hacq, Except.map]
    | ok conn =>
      cases hf : conn.fetchOneOutcome (pg_sqlx_query stmt) with
      | error e =>
        cases e <;>
          simp [SqlxPostgresPoolConnection.query_one,
            SqlxSqlitePoolConnection.query_one,
            SqlxPostgresPoolConnection.toSqlite, PgConn.toSqliteConn,
            sqlite_sqlx_query_eq_pg, hacq, hf, Except.map]
      | ok row =>
        simp [SqlxPostgresPoolConnection.query_one,
          SqlxSqlitePoolConnection.query_one,
          SqlxPostgresPoolConnection.toSqlite, PgConn.toSqliteConn,
          sqlite_sqlx_query_eq_pg, hacq, hf, Except.map,
          QueryResult.fromPgRow, QueryResult.fromSqliteRow, QueryResult.retag]
  · cases hacq : c.pool.acquireOutcome with
    | error e =>
      simp [SqlxPostgresPoolConnection.query_all, SqlxSqlitePoolConnection.query_all,
        SqlxPostgresPoolConnection.toSqlite, hacq, Except.map]
    | ok conn =>
      cases hf : conn.fetchAllOutcome (pg_sqlx_query stmt) with
      | error e =>
        simp [SqlxPostgresPoolConnection.query_all,
          SqlxSqlitePoolConnection.query_all,
          SqlxPostgresPoolConnection.toSqlite, PgConn.toSqliteConn,
          sqlite_sqlx_query_eq_pg, hacq, hf, Except.map]
      | ok rows =>
        simp [SqlxPostgresPoolConnection.query_all,
          SqlxSqlitePoolConnection.query_all,
          SqlxPostgresPoolConnection.toSqlite, PgConn.toSqliteConn,
          sqlite_sqlx_query_eq_pg, hacq, hf, Except.map,
          QueryResult.fromPgRow, QueryResult.fromSqliteRow, QueryResult.retag]
  · cases hacq : c.pool.acquireOutcome with
    | error e =>
      simp [SqlxPostgresPoolConnection.transaction,
        SqlxSqlitePoolConnection.transaction,
        SqlxPostgresPoolConnection.toSqlite, hacq, Except.map]
    | ok conn =>
      cases hb : conn.beginOutcome with
      | error e =>
        simp [SqlxPostgresPoolConnection.transaction,
          SqlxSqlitePoolConnection.transaction,
          SqlxPostgresPoolConnection.toSqlite, PgConn.toSqliteConn, hacq, hb,
          Except.map]
      | ok u =>
        simp [SqlxPostgresPoolConnection.transaction,
          SqlxSqlitePoolConnection.transaction,
          SqlxPostgresPoolConnection.toSqlite, PgConn.toSqliteConn, hacq, hb,
          Except.map]

end SeaOrm
